import Mathlib

/-!
Shallow embedding of the delivery-order dispatch backend
(`src/controllers/deliveryAgent.controller.js`, `src/utils/changeStreams.js`)
and proofs of the specification claims about it.

Conventions of the embedding:
* Mongo ObjectIds are modelled as `String`.
* Timestamps (`new Date()`) are modelled as `Nat` milliseconds since the epoch;
  `setMinutes(+30)` becomes `+ 30 * 60 * 1000`.
* JS numbers are modelled as `ℚ`.
* GeoJSON points store `[longitude, latitude]`; a document whose
  `pickupLocation.coordinates` destructuring would throw (missing / malformed
  coordinates) is modelled as `pickupLocation = none`.
* Each Express handler is embedded as a pure function returning the documents
  it would have saved together with the outcome; an early
  `return next(createError(...))` is a branch that returns the input documents
  unchanged (the code reaches `save()` only on the success path).
-/

namespace FoodDelivery

/-- A GeoJSON point: `coordinates = [longitude, latitude]`. -/
structure GeoPoint where
  lng : ℚ
  lat : ℚ
deriving DecidableEq

/-- One entry of an statusHistory ledger of an order. -/
structure HistoryEntry where
  status : String
  timestamp : Nat
  location : Option GeoPoint
  note : String
deriving DecidableEq

/-- The order document (fields used by the delivery-agent controller). -/
structure Order where
  id : String
  user : String
  status : String
  pickupLocation : Option GeoPoint
  deliveryAgent : Option String
  statusHistory : List HistoryEntry
  estimatedDeliveryTime : Option Nat
  actualDeliveryTime : Option Nat
deriving DecidableEq

/-- The delivery-agent document. -/
structure Agent where
  id : String
  user : String
  isVerified : Bool
  isAvailable : Bool
  currentLocation : Option GeoPoint
  activeOrders : List String
  rejectedOrders : List String
  deliveryHistory : List String
deriving DecidableEq

/-- The structured error produced by `createError(statusCode, message)`. -/
structure ApiError where
  statusCode : Nat
  message : String
deriving DecidableEq

/-- Outcome of a handler: `.ok ()` for a 200 response, `.error e` for
`next(createError(...))`. -/
abbrev Outcome := Except ApiError Unit

/-- Guard section of `acceptOrder`: the chain of early-return checks on the
agent and on the order snapshot (controller lines 293-314).  Returns the
error of the first failing check, or `none` when the transition may proceed. -/
def acceptGuard (agent : Agent) (ord : Order) : Option ApiError :=
  if !agent.isVerified then
    some ⟨403, "Your account is not yet verified to accept orders"⟩
  else if !agent.isAvailable then
    some ⟨400, "You need to set yourself as available to accept orders"⟩
  else if ord.deliveryAgent.isSome then
    some ⟨400, "This order has already been assigned to a delivery agent"⟩
  else if ord.status ≠ "confirmed" then
    some ⟨400, "Order is not available for delivery"⟩
  else
    none

/-- The single `statusHistory` entry pushed by `acceptOrder` (lines 326-331). -/
def acceptEntry (agent : Agent) (now : Nat) (username : String) : HistoryEntry :=
  { status := "out_for_delivery"
    timestamp := now
    location := agent.currentLocation
    note := "Assigned to delivery agent: " ++ username }

/-- Mutation section of `acceptOrder` (lines 316-333): field updates written to
the order document by `order.save()`. -/
def acceptApply (agent : Agent) (ord : Order) (now : Nat) (username : String) : Order :=
  { ord with
    deliveryAgent := some agent.id
    status := "out_for_delivery"
    estimatedDeliveryTime := some (now + 30 * 60 * 1000)
    statusHistory := ord.statusHistory ++ [acceptEntry agent now username] }

/-- The `acceptOrder` handler on a found agent and order: guards, then the
order update and the `agent.activeOrders.push` (lines 283-356). -/
def acceptOrderRun (agent : Agent) (ord : Order) (now : Nat) (username : String) :
    Order × Agent × Outcome :=
  match acceptGuard agent ord with
  | some e => (ord, agent, .error e)
  | none =>
      (acceptApply agent ord now username,
       { agent with activeOrders := agent.activeOrders ++ [ord.id] },
       .ok ())

/-- The single `statusHistory` entry pushed by `completeDelivery`
(lines 393-398). -/
def completeEntry (agent : Agent) (now : Nat) : HistoryEntry :=
  { status := "delivered"
    timestamp := now
    location := agent.currentLocation
    note := "Order delivered successfully" }

/-- The `completeDelivery` handler on a found agent and order
(lines 364-423): ownership and state guards, then the order update and the
move of the order id from `activeOrders` to `deliveryHistory`. -/
def completeDeliveryRun (agent : Agent) (ord : Order) (now : Nat) :
    Order × Agent × Outcome :=
  if ord.deliveryAgent ≠ some agent.id then
    (ord, agent, .error ⟨403, "This order is not assigned to you"⟩)
  else if ord.status ≠ "out_for_delivery" then
    (ord, agent, .error ⟨400, "Order is not out for delivery"⟩)
  else
    ({ ord with
        status := "delivered"
        actualDeliveryTime := some now
        statusHistory := ord.statusHistory ++ [completeEntry agent now] },
     { agent with
        activeOrders := agent.activeOrders.filter (fun i => i != ord.id)
        deliveryHistory := agent.deliveryHistory ++ [ord.id] },
     .ok ())

/-- The `rejectOrder` handler on a found agent and order (lines 567-616):
guards, then a conditional push into `rejectedOrders`; the order document is
only read, never written, so it is returned unchanged in every branch. -/
def rejectOrderRun (agent : Agent) (ord : Order) : Agent × Order × Outcome :=
  if !agent.isVerified then
    (agent, ord, .error ⟨403, "Your account is not yet verified to reject orders"⟩)
  else if !agent.isAvailable then
    (agent, ord, .error ⟨400, "You need to set yourself as available to manage orders"⟩)
  else if ord.deliveryAgent.isSome then
    (agent, ord, .error ⟨400, "This order has already been assigned to a delivery agent"⟩)
  else if agent.rejectedOrders.contains ord.id then
    (agent, ord, .ok ())
  else
    ({ agent with rejectedOrders := agent.rejectedOrders ++ [ord.id] }, ord, .ok ())

/-- A JavaScript request-body value, as far as the `updateLocation`
validation can distinguish them. -/
inductive JSVal where
  | num (q : ℚ)
  | str (s : String)
  | boolean (b : Bool)
  | undef
  | nullv
deriving DecidableEq

/-- JS truthiness of a request-body value (`0`, `""`, `false`, `undefined`,
`null` are falsy). -/
def JSVal.truthy : JSVal → Bool
  | .num q => q ≠ 0
  | .str s => s ≠ ""
  | .boolean b => b
  | .undef => false
  | .nullv => false

/-- The check `typeof v === "number"`. -/
def JSVal.isNumber : JSVal → Bool
  | .num _ => true
  | _ => false

/-- Numeric value of a request-body value (only reached after `isNumber`). -/
def JSVal.toNum : JSVal → ℚ
  | .num q => q
  | _ => 0

/-- The `updateLocation` handler on a found agent (lines 79-98): the
`!longitude || !latitude || typeof !== number` validation, then the write of
`currentLocation` as `[longitude, latitude]`. -/
def updateLocationRun (lon lat : JSVal) (agent : Agent) : Agent × Outcome :=
  if !lon.truthy || !lat.truthy || !lon.isNumber || !lat.isNumber then
    (agent, .error ⟨400, "Valid longitude and latitude coordinates are required"⟩)
  else
    ({ agent with currentLocation := some ⟨lon.toNum, lat.toNum⟩ }, .ok ())

/-! ### Geo-matcher: `getNearbyOrders` (lines 131-280)

`calculateDistance` is invoked by the controller but its definition is not
under `src/`; it is abstracted below as a distance-function parameter. -/

/-- Modelled from the spec: the missing `calculateDistance` helper ("Distance
computed via the haversine great-circle formula on (latitude, longitude)
pairs"). The controller calls it with the coordinates of the agent and of the order; since its body is not under `src/`, the embedding abstracts it
as an arbitrary function from the two points to a distance in meters. -/
def DistanceFn : Type := GeoPoint → GeoPoint → ℚ

/-- The constant `Number.MAX_SAFE_INTEGER`, the distance-unknown sentinel used for orders
with invalid coordinates (line 217). -/
def MAX_SAFE_INTEGER : ℚ := 9007199254740991

/-- The maximum delivery distance in meters, 2 km radius (line 153). -/
def maxDistance : ℚ := 2000

/-- The JS `Math.round` (round half toward positive infinity). -/
def jsRound (q : ℚ) : ℤ := ⌊q + 1 / 2⌋

/-- The JS `toFixed(2)` on a nonnegative value: round to the
nearest hundredth (ties up) and print with exactly two decimals. -/
def toFixed2 (q : ℚ) : String :=
  toString (⌊q * 100 + 1 / 2⌋ / 100) ++ "." ++
    (if ⌊q * 100 + 1 / 2⌋ % 100 < 10 then "0" else "") ++
    toString (⌊q * 100 + 1 / 2⌋ % 100)

/-- The distance annotation text (lines 203-205): integer meters below
1000 m, otherwise kilometers with two decimals. -/
def distanceText (d : ℚ) : String :=
  if d < 1000 then toString (jsRound d) ++ " m"
  else toFixed2 (d / 1000) ++ " km"

/-- The `distance` object attached to each returned order. `err` models the
presence of the fallback field `error: "Invalid coordinates"`. -/
structure DistanceInfo where
  value : ℚ
  unit : String
  text : String
  err : Bool
deriving DecidableEq

/-- The `distance` object of an order whose distance was computed
(lines 200-206). -/
def mkDistanceInfo (d : ℚ) : DistanceInfo :=
  { value := d, unit := "meters", text := distanceText d, err := false }

/-- An order as returned by `getNearbyOrders`: the plain order plus the
distance annotation.  `withinDeliveryRange` is `none` for the active orders of the agent itself, whose annotation never sets that field (lines 240-263). -/
structure AnnotatedOrder where
  ord : Order
  distance : DistanceInfo
  withinDeliveryRange : Option Bool
deriving DecidableEq

/-- Annotation of one candidate order (lines 185-225): compute the distance
from the position of the agent to the pickup point; if the pickup coordinates are
missing/malformed (the destructuring throws), fall back to the
`MAX_SAFE_INTEGER` sentinel with text `Unknown` and `withinDeliveryRange =
false` instead of failing. -/
def annotateOrder (dist : DistanceFn) (loc : GeoPoint) (o : Order) : AnnotatedOrder :=
  match o.pickupLocation with
  | some p =>
      { ord := o
        distance := mkDistanceInfo (dist loc p)
        withinDeliveryRange := some (decide (dist loc p ≤ maxDistance)) }
  | none =>
      { ord := o
        distance :=
          { value := MAX_SAFE_INTEGER, unit := "meters", text := "Unknown", err := true }
        withinDeliveryRange := some false }

/-- The store query for candidate orders (lines 159-163): not rejected by
this agent, no `deliveryAgent`, status `confirmed`. -/
def nearbyQuery (agent : Agent) (o : Order) : Bool :=
  !agent.rejectedOrders.contains o.id && o.deliveryAgent.isNone && o.status == "confirmed"

/-- The coarse `$near` radius filter of the store, applied only when
`includeAllConfirmed` is not set (lines 166-176): keeps documents with a
pickup point within `maxDistance` of the agent. -/
def geoNearFilter (dist : DistanceFn) (loc : GeoPoint) (o : Order) : Bool :=
  match o.pickupLocation with
  | some p => decide (dist loc p ≤ maxDistance)
  | none => false

/-- Comparator of the candidate sort (line 228): ascending by
`distance.value`. -/
def distLE (a b : AnnotatedOrder) : Prop :=
  a.distance.value ≤ b.distance.value

instance : DecidableRel distLE := fun a b =>
  inferInstanceAs (Decidable (a.distance.value ≤ b.distance.value))

instance : IsTotal AnnotatedOrder distLE :=
  ⟨fun a b => le_total a.distance.value b.distance.value⟩

instance : IsTrans AnnotatedOrder distLE :=
  ⟨fun _ _ _ hab hbc => le_trans hab hbc⟩

/-- The `ordersWithDistance` candidate list (lines 179-228): query the store
(with the radius filter unless `includeAllConfirmed`), annotate each result
with its distance, and sort ascending by distance. -/
def ordersWithDistance (dist : DistanceFn) (loc : GeoPoint) (agent : Agent)
    (db : List Order) (includeAllConfirmed : Bool) : List AnnotatedOrder :=
  let queried :=
    if includeAllConfirmed then db.filter (nearbyQuery agent)
    else (db.filter (nearbyQuery agent)).filter (geoNearFilter dist loc)
  (queried.map (annotateOrder dist loc)).insertionSort distLE

/-- The store query for the active orders of the agent itself (lines 231-237). -/
def activeOrdersQuery (agent : Agent) (o : Order) : Bool :=
  agent.activeOrders.contains o.id && o.status == "out_for_delivery"

/-- Annotation of one active order (lines 240-263).  This path has no
`try`/`catch`: a missing pickup point makes the destructuring throw, which
the outer handler turns into a 500 error. -/
def annotateActive (dist : DistanceFn) (loc : GeoPoint) (o : Order) :
    Except ApiError AnnotatedOrder :=
  match o.pickupLocation with
  | some p =>
      .ok { ord := o, distance := mkDistanceInfo (dist loc p), withinDeliveryRange := none }
  | none => .error ⟨500, "Error fetching nearby orders"⟩

/-- Annotation of the list of active orders, `Promise.all` over the map
(line 240): the first failing annotation fails the whole listing. -/
def annotateActives (dist : DistanceFn) (loc : GeoPoint) :
    List Order → Except ApiError (List AnnotatedOrder)
  | [] => .ok []
  | o :: rest => do
      let a ← annotateActive dist loc o
      let as ← annotateActives dist loc rest
      return a :: as

/-- The `getNearbyOrders` handler on a found agent (lines 131-280): agent
guards, candidate pipeline, then the active orders of the agent appended
after the ranked candidates. -/
def getNearbyOrders (dist : DistanceFn) (db : List Order) (agent : Agent)
    (includeAllConfirmed : Bool) : Except ApiError (List AnnotatedOrder) :=
  if !agent.isVerified then
    .error ⟨403, "Your account is not yet verified to accept orders"⟩
  else if !agent.isAvailable then
    .error ⟨400, "You are currently set as unavailable for deliveries"⟩
  else
    match agent.currentLocation with
    | none => .error ⟨500, "Error fetching nearby orders"⟩
    | some loc => do
        let actives ← annotateActives dist loc (db.filter (activeOrdersQuery agent))
        return ordersWithDistance dist loc agent db includeAllConfirmed ++ actives

/-! ### Change feed watcher and fan-out (`src/utils/changeStreams.js`) -/

/-- A change-stream event as delivered to the `change` handler. -/
structure ChangeEvent where
  operationType : String
  fullDocument : Option Order
deriving DecidableEq

/-- Topics the `change` handler emits to for a full order document
(lines 42-66): the order room and the owning user always, the delivery
room of the delivery agent exactly when one is assigned. -/
def fanoutTopics (o : Order) : List String :=
  ["order_" ++ o.id, "user_" ++ o.user] ++
    (match o.deliveryAgent with
     | some a => ["agent_" ++ a]
     | none => [])

/-- The `change` handler (lines 34-72): react only to
update/insert/replace events carrying a full document, and emit to the
derived topics. Returns the list of topics published to. -/
def handleOrderChange (c : ChangeEvent) : List String :=
  if c.operationType == "update" || c.operationType == "insert"
      || c.operationType == "replace" then
    match c.fullDocument with
    | some o => fanoutTopics o
    | none => []
  else []

/-- Observable state of the watcher: whether the global
`orderChangeStream` handle holds an open stream, and whether a 5-second
`setTimeout(createOrderChangeStream, 5000)` reconnect is pending. -/
structure WatcherState where
  streamOpen : Bool
  reconnectScheduled : Bool
deriving DecidableEq

/-- The `close` event handler of the stream (lines 83-90): schedule a reconnect
whenever `mongoose.connection.readyState === 1`; there is no shutdown flag
consulted. -/
def onStreamClose (connectionReady : Bool) (w : WatcherState) : WatcherState :=
  if connectionReady then { w with reconnectScheduled := true } else w

/-- The `error` event handler (lines 74-81): always schedule a reconnect. -/
def onStreamError (w : WatcherState) : WatcherState :=
  { w with reconnectScheduled := true }

/-- The `closeChangeStreams` function (lines 136-142), the intentional-shutdown path:
`await orderChangeStream.close()` closes the stream, which fires the
`close` handler with the connection state at that moment, then the handle
is cleared. -/
def closeChangeStreams (connectionReady : Bool) (w : WatcherState) : WatcherState :=
  if w.streamOpen then
    onStreamClose connectionReady { w with streamOpen := false }
  else w

/-! ### Interleaving model of concurrent `acceptOrder` (lines 283-356)

Each request is split into the store operations the handler performs on the
shared order document: a read (`Order.findById`, line 303) taking a
snapshot, and a write (`order.save()`, line 333) performed only when the
guards pass *on the snapshot*.  The write applies the modified paths —
`$set` of `deliveryAgent` / `status` / `estimatedDeliveryTime` and the push
of the new history entry — to the document currently in the store; there is
no conditional predicate on the write.  Two concurrent requests, by agents
`aA` and `aB`, race on one shared order. -/

instance : DecidableEq Outcome
  | .ok (), .ok () => isTrue rfl
  | .ok (), .error _ => isFalse (fun h => Except.noConfusion h)
  | .error _, .ok () => isFalse (fun h => Except.noConfusion h)
  | .error e, .error f =>
      if h : e = f then isTrue (congrArg Except.error h)
      else isFalse (fun hh => h (Except.error.inj hh))

/-- State of the two racing requests and the shared stored order. -/
structure RaceSys where
  store : Order
  snapA : Option Order
  snapB : Option Order
  outA : Option Outcome
  outB : Option Outcome
deriving DecidableEq

/-- The four store operations of the two racing `acceptOrder` requests. -/
inductive RaceAction where
  | readA
  | readB
  | writeA
  | writeB
deriving DecidableEq

/-- One store operation of the race.  A write validates the guards against
the snapshot of its own request (the in-memory mongoose document), and on
success unconditionally applies the update to the current store document. -/
def raceStep (aA aB : Agent) (now : Nat) (uA uB : String) (s : RaceSys) :
    RaceAction → RaceSys
  | .readA => { s with snapA := some s.store }
  | .readB => { s with snapB := some s.store }
  | .writeA =>
      match s.snapA with
      | none => s
      | some snap =>
          match acceptGuard aA snap with
          | some e => { s with outA := some (.error e) }
          | none =>
              { s with store := acceptApply aA s.store now uA, outA := some (.ok ()) }
  | .writeB =>
      match s.snapB with
      | none => s
      | some snap =>
          match acceptGuard aB snap with
          | some e => { s with outB := some (.error e) }
          | none =>
              { s with store := acceptApply aB s.store now uB, outB := some (.ok ()) }

/-- Run a schedule of store operations of the two racing requests. -/
def raceRun (aA aB : Agent) (now : Nat) (uA uB : String) (s : RaceSys)
    (sched : List RaceAction) : RaceSys :=
  sched.foldl (raceStep aA aB now uA uB) s

/-- Initial race state over a stored order: nothing read, nothing decided. -/
def raceInit (o : Order) : RaceSys :=
  { store := o, snapA := none, snapB := none, outA := none, outB := none }

/-! ### Concrete fixtures used by witnesses and counterexamples -/

/-- A verified, available agent with a known position. -/
def agentA : Agent :=
  { id := "a1", user := "u1", isVerified := true, isAvailable := true
    currentLocation := some ⟨10, 20⟩
    activeOrders := [], rejectedOrders := [], deliveryHistory := [] }

/-- A second verified, available agent, distinct from `agentA`. -/
def agentB : Agent :=
  { agentA with id := "a2", user := "u2" }

/-- A confirmed, unassigned order with well-formed pickup coordinates. -/
def orderO : Order :=
  { id := "o1", user := "cust1", status := "confirmed"
    pickupLocation := some ⟨11, 21⟩, deliveryAgent := none
    statusHistory := [], estimatedDeliveryTime := none, actualDeliveryTime := none }

/-- A confirmed, unassigned order whose pickup coordinates are malformed. -/
def orderMalformed : Order :=
  { orderO with id := "o2", user := "cust2", pickupLocation := none }

/-- An order already assigned to `agentA` and out for delivery. -/
def orderAssigned : Order :=
  { orderO with
    id := "o3"
    user := "cust3"
    status := "out_for_delivery"
    deliveryAgent := some agentA.id }

/-! ### Claim theorems -/

/-- C2: for a verified, available agent and a confirmed order with no
assigned agent, a successful `acceptOrder` sets the order status to
`out_for_delivery`, sets its assigned agent to that agent, sets the
estimated delivery time to now plus 30 minutes, appends exactly one
`statusHistory` entry, and appends the order id to the active orders of the
agent. -/
theorem C2_acceptOrder_success_effects (agent : Agent) (ord : Order) (now : Nat)
    (u : String) (hv : agent.isVerified = true) (ha : agent.isAvailable = true)
    (hun : ord.deliveryAgent = none) (hst : ord.status = "confirmed") :
    acceptOrderRun agent ord now u =
      ({ ord with
          deliveryAgent := some agent.id
          status := "out_for_delivery"
          estimatedDeliveryTime := some (now + 30 * 60 * 1000)
          statusHistory := ord.statusHistory ++ [acceptEntry agent now u] },
       { agent with activeOrders := agent.activeOrders ++ [ord.id] },
       .ok ()) := by
  simp [acceptOrderRun, acceptGuard, acceptApply, hv, ha, hun, hst]

/-- Witness for C2 at concrete inputs. -/
theorem C2_acceptOrder_success_effects_witness :
    acceptOrderRun agentA orderO 1000 "alice" =
      ({ orderO with
          deliveryAgent := some agentA.id
          status := "out_for_delivery"
          estimatedDeliveryTime := some (1000 + 30 * 60 * 1000)
          statusHistory := orderO.statusHistory ++ [acceptEntry agentA 1000 "alice"] },
       { agentA with activeOrders := agentA.activeOrders ++ [orderO.id] },
       .ok ()) :=
  C2_acceptOrder_success_effects agentA orderO 1000 "alice" rfl rfl rfl rfl

/-- C4: a `completeDelivery` attempt on an order assigned to a different
agent fails with a 403 forbidden error and returns the order and the agent
documents entirely unchanged. -/
theorem C4_completeDelivery_nonowner_forbidden (b : Agent) (ord : Order) (now : Nat)
    (a : String) (hassigned : ord.deliveryAgent = some a) (hne : a ≠ b.id) :
    completeDeliveryRun b ord now =
      (ord, b, .error ⟨403, "This order is not assigned to you"⟩) := by
  have hda : ord.deliveryAgent ≠ some b.id := by
    rw [hassigned]
    intro h
    exact hne (Option.some.inj h)
  simp [completeDeliveryRun, hda]

/-- Witness for C4 at concrete inputs: `orderAssigned` belongs to `agentA`,
and `agentB` attempts to complete it. -/
theorem C4_completeDelivery_nonowner_forbidden_witness :
    completeDeliveryRun agentB orderAssigned 2000 =
      (orderAssigned, agentB, .error ⟨403, "This order is not assigned to you"⟩) :=
  C4_completeDelivery_nonowner_forbidden agentB orderAssigned 2000 agentA.id rfl
    (by decide)

/-- C5: for a verified, available agent and an unassigned order, rejecting
succeeds and records the order id; rejecting the same order again is a
no-op success that changes nothing, the id appears exactly once, and the
order document is never modified. -/
theorem C5_rejectOrder_idempotent (agent : Agent) (ord : Order)
    (hv : agent.isVerified = true) (ha : agent.isAvailable = true)
    (hun : ord.deliveryAgent = none) (h0 : ord.id ∉ agent.rejectedOrders) :
    (rejectOrderRun agent ord).2.2 = .ok () ∧
    (rejectOrderRun agent ord).2.1 = ord ∧
    (rejectOrderRun agent ord).1.rejectedOrders = agent.rejectedOrders ++ [ord.id] ∧
    rejectOrderRun (rejectOrderRun agent ord).1 ord =
      ((rejectOrderRun agent ord).1, ord, .ok ()) ∧
    (rejectOrderRun agent ord).1.rejectedOrders.count ord.id = 1 := by
  have h1 : rejectOrderRun agent ord =
      ({ agent with rejectedOrders := agent.rejectedOrders ++ [ord.id] }, ord, .ok ()) := by
    simp [rejectOrderRun, hv, ha, hun, h0]
  have hmem : ord.id ∈ agent.rejectedOrders ++ [ord.id] := by
    simp
  refine ⟨by rw [h1], by rw [h1], by rw [h1], ?_, ?_⟩
  · rw [h1]
    simp [rejectOrderRun, hv, ha, hun, hmem]
  · rw [h1]
    simp [List.count_append, List.count_eq_zero.mpr h0]

/-- Witness for C5 at concrete inputs. -/
theorem C5_rejectOrder_idempotent_witness :
    (rejectOrderRun agentA orderO).2.2 = .ok () ∧
    (rejectOrderRun agentA orderO).2.1 = orderO ∧
    (rejectOrderRun agentA orderO).1.rejectedOrders =
      agentA.rejectedOrders ++ [orderO.id] ∧
    rejectOrderRun (rejectOrderRun agentA orderO).1 orderO =
      ((rejectOrderRun agentA orderO).1, orderO, .ok ()) ∧
    (rejectOrderRun agentA orderO).1.rejectedOrders.count orderO.id = 1 :=
  C5_rejectOrder_idempotent agentA orderO rfl rfl rfl (by decide)

/-- C10: `updateLocation` rejects any request in which longitude or latitude
equals 0 with a 400 validation error, leaving the stored agent unchanged,
and a request can succeed only when both coordinates are non-zero
numbers. -/
theorem C10_updateLocation_zero_coordinate_rejected (lon lat : JSVal) (agent : Agent) :
    ((lon = .num 0 ∨ lat = .num 0) →
      updateLocationRun lon lat agent =
        (agent, .error ⟨400, "Valid longitude and latitude coordinates are required"⟩)) ∧
    ((updateLocationRun lon lat agent).2 = .ok () →
      (∃ q, lon = .num q ∧ q ≠ 0) ∧ (∃ r, lat = .num r ∧ r ≠ 0)) := by
  constructor
  · rintro (rfl | rfl) <;>
      simp [updateLocationRun, JSVal.truthy]
  · intro hok
    by_cases hbad : (!lon.truthy || !lat.truthy || !lon.isNumber || !lat.isNumber) = true
    · rw [updateLocationRun.eq_def, if_pos hbad] at hok
      cases hok
    · simp only [Bool.or_eq_true, Bool.not_eq_true'] at hbad
      push_neg at hbad
      obtain ⟨⟨⟨ht1, ht2⟩, hn1⟩, hn2⟩ := hbad
      cases lon with
      | num q =>
          cases lat with
          | num r =>
              refine ⟨⟨q, rfl, ?_⟩, ⟨r, rfl, ?_⟩⟩
              · simpa [JSVal.truthy] using ht1
              · simpa [JSVal.truthy] using ht2
          | str s => simp [JSVal.isNumber] at hn2
          | boolean b => simp [JSVal.isNumber] at hn2
          | undef => simp [JSVal.isNumber] at hn2
          | nullv => simp [JSVal.isNumber] at hn2
      | str s => simp [JSVal.isNumber] at hn1
      | boolean b => simp [JSVal.isNumber] at hn1
      | undef => simp [JSVal.isNumber] at hn1
      | nullv => simp [JSVal.isNumber] at hn1

/-- Witness for C10 at concrete inputs: longitude 0 (a valid point on the
prime meridian) is rejected and the agent is unchanged. -/
theorem C10_updateLocation_zero_coordinate_rejected_witness :
    updateLocationRun (.num 0) (.num 5) agentA =
      (agentA, .error ⟨400, "Valid longitude and latitude coordinates are required"⟩) :=
  (C10_updateLocation_zero_coordinate_rejected (.num 0) (.num 5) agentA).1 (Or.inl rfl)

/-- A statusHistory ledger is sorted when its timestamps ascend. -/
def historySorted (h : List HistoryEntry) : Prop :=
  List.Sorted (fun a b => a.timestamp ≤ b.timestamp) h

/-- Appending an entry at least as recent as every existing entry keeps the
ledger sorted. -/
lemma historySorted_append (h : List HistoryEntry) (e : HistoryEntry)
    (hs : historySorted h) (hle : ∀ x ∈ h, x.timestamp ≤ e.timestamp) :
    historySorted (h ++ [e]) := by
  unfold historySorted at hs ⊢
  refine List.pairwise_append.mpr ⟨hs, List.pairwise_singleton _ _, ?_⟩
  intro a ha b hb
  rcases List.mem_singleton.mp hb with rfl
  exact hle a ha

/-- Outcome analysis of `acceptOrderRun`: either an early return leaving
both documents untouched, or the success tuple. -/
lemma acceptOrderRun_cases (agent : Agent) (ord : Order) (now : Nat) (u : String) :
    (∃ e, acceptOrderRun agent ord now u = (ord, agent, .error e)) ∨
    acceptOrderRun agent ord now u =
      (acceptApply agent ord now u,
       { agent with activeOrders := agent.activeOrders ++ [ord.id] }, .ok ()) := by
  unfold acceptOrderRun
  cases acceptGuard agent ord <;> simp

/-- Outcome analysis of `completeDeliveryRun`: either an early return
leaving both documents untouched, or the success tuple. -/
lemma completeDeliveryRun_cases (agent : Agent) (ord : Order) (now : Nat) :
    (∃ e, completeDeliveryRun agent ord now = (ord, agent, .error e)) ∨
    completeDeliveryRun agent ord now =
      ({ ord with
          status := "delivered"
          actualDeliveryTime := some now
          statusHistory := ord.statusHistory ++ [completeEntry agent now] },
       { agent with
          activeOrders := agent.activeOrders.filter (fun i => i != ord.id)
          deliveryHistory := agent.deliveryHistory ++ [ord.id] }, .ok ()) := by
  unfold completeDeliveryRun
  by_cases h1 : ord.deliveryAgent ≠ some agent.id
  · exact Or.inl ⟨_, by rw [if_pos h1]⟩
  · rw [if_neg h1]
    by_cases h2 : ord.status ≠ "out_for_delivery"
    · exact Or.inl ⟨_, by rw [if_pos h2]⟩
    · exact Or.inr (by rw [if_neg h2])

/-- C3: across `acceptOrder` and `completeDelivery` the status history is
append-only: a successful run appends exactly one entry and leaves the
existing entries untouched, a failed run leaves the order unchanged, the
length never decreases, and (whenever the existing entries predate the
current time) the ledger stays sorted by timestamp ascending. -/
theorem C3_statusHistory_append_only (agent : Agent) (ord : Order) (now : Nat)
    (u : String) (hsorted : historySorted ord.statusHistory)
    (hle : ∀ e ∈ ord.statusHistory, e.timestamp ≤ now) :
    ((acceptOrderRun agent ord now u).2.2 = .ok () →
      (acceptOrderRun agent ord now u).1.statusHistory =
        ord.statusHistory ++ [acceptEntry agent now u]) ∧
    ((acceptOrderRun agent ord now u).2.2 ≠ .ok () →
      (acceptOrderRun agent ord now u).1 = ord) ∧
    ord.statusHistory.length ≤ (acceptOrderRun agent ord now u).1.statusHistory.length ∧
    historySorted (acceptOrderRun agent ord now u).1.statusHistory ∧
    ((completeDeliveryRun agent ord now).2.2 = .ok () →
      (completeDeliveryRun agent ord now).1.statusHistory =
        ord.statusHistory ++ [completeEntry agent now]) ∧
    ((completeDeliveryRun agent ord now).2.2 ≠ .ok () →
      (completeDeliveryRun agent ord now).1 = ord) ∧
    ord.statusHistory.length ≤ (completeDeliveryRun agent ord now).1.statusHistory.length ∧
    historySorted (completeDeliveryRun agent ord now).1.statusHistory := by
  have hacc := acceptOrderRun_cases agent ord now u
  have hcom := completeDeliveryRun_cases agent ord now
  refine ⟨?_, ?_, ?_, ?_, ?_, ?_, ?_, ?_⟩
  · rcases hacc with ⟨e, he⟩ | hs
    · rw [he]; simp
    · rw [hs]; intro _; simp [acceptApply]
  · rcases hacc with ⟨e, he⟩ | hs
    · rw [he]; intro _; rfl
    · rw [hs]; simp
  · rcases hacc with ⟨e, he⟩ | hs
    · rw [he]
    · rw [hs]; simp [acceptApply]
  · rcases hacc with ⟨e, he⟩ | hs
    · rw [he]; exact hsorted
    · rw [hs]
      exact historySorted_append _ _ hsorted (by simpa [acceptEntry] using hle)
  · rcases hcom with ⟨e, he⟩ | hs
    · rw [he]; simp
    · rw [hs]; intro _; rfl
  · rcases hcom with ⟨e, he⟩ | hs
    · rw [he]; intro _; rfl
    · rw [hs]; simp
  · rcases hcom with ⟨e, he⟩ | hs
    · rw [he]
    · rw [hs]; simp
  · rcases hcom with ⟨e, he⟩ | hs
    · rw [he]; exact hsorted
    · rw [hs]
      exact historySorted_append _ _ hsorted (by simpa [completeEntry] using hle)

/-- Witness for C3 at concrete inputs. -/
theorem C3_statusHistory_append_only_witness :
    ((acceptOrderRun agentA orderO 1000 "alice").2.2 = .ok () →
      (acceptOrderRun agentA orderO 1000 "alice").1.statusHistory =
        orderO.statusHistory ++ [acceptEntry agentA 1000 "alice"]) ∧
    ((acceptOrderRun agentA orderO 1000 "alice").2.2 ≠ .ok () →
      (acceptOrderRun agentA orderO 1000 "alice").1 = orderO) ∧
    orderO.statusHistory.length ≤
      (acceptOrderRun agentA orderO 1000 "alice").1.statusHistory.length ∧
    historySorted (acceptOrderRun agentA orderO 1000 "alice").1.statusHistory ∧
    ((completeDeliveryRun agentA orderO 1000).2.2 = .ok () →
      (completeDeliveryRun agentA orderO 1000).1.statusHistory =
        orderO.statusHistory ++ [completeEntry agentA 1000]) ∧
    ((completeDeliveryRun agentA orderO 1000).2.2 ≠ .ok () →
      (completeDeliveryRun agentA orderO 1000).1 = orderO) ∧
    orderO.statusHistory.length ≤
      (completeDeliveryRun agentA orderO 1000).1.statusHistory.length ∧
    historySorted (completeDeliveryRun agentA orderO 1000).1.statusHistory :=
  C3_statusHistory_append_only agentA orderO 1000 "alice"
    (List.sorted_nil) (by intro e he; cases he)

/-- C7: for a candidate order with computed distance d, the annotation
carries the exact value in meters, the text is the rounded meter count with
suffix " m" below 1000 and the two-decimal kilometer count with suffix
" km" otherwise, and `withinDeliveryRange` holds exactly when d is at most
the 2000 meter radius. -/
theorem C7_distance_annotation_format (dist : DistanceFn) (loc : GeoPoint) (o : Order)
    (p : GeoPoint) (hp : o.pickupLocation = some p) :
    (annotateOrder dist loc o).distance.value = dist loc p ∧
    (annotateOrder dist loc o).distance.unit = "meters" ∧
    (dist loc p < 1000 →
      (annotateOrder dist loc o).distance.text =
        toString ⌊dist loc p + 1 / 2⌋ ++ " m") ∧
    (¬ dist loc p < 1000 →
      (annotateOrder dist loc o).distance.text =
        toFixed2 (dist loc p / 1000) ++ " km") ∧
    ((annotateOrder dist loc o).withinDeliveryRange = some true ↔ dist loc p ≤ 2000) := by
  have ha : annotateOrder dist loc o =
      { ord := o
        distance := mkDistanceInfo (dist loc p)
        withinDeliveryRange := some (decide (dist loc p ≤ maxDistance)) } := by
    simp [annotateOrder, hp]
  rw [ha]
  refine ⟨rfl, rfl, ?_, ?_, ?_⟩
  · intro h
    simp [mkDistanceInfo, distanceText, jsRound, if_pos h]
  · intro h
    simp [mkDistanceInfo, distanceText, if_neg h]
  · simp [maxDistance]

/-- Witness for C7: a pickup 1500 m away is annotated "1.50 km" and is
within the delivery range. -/
theorem C7_distance_annotation_format_witness :
    (annotateOrder (fun _ _ => 1500) ⟨0, 0⟩ orderO).distance.text = "1.50 km" ∧
    (annotateOrder (fun _ _ => 1500) ⟨0, 0⟩ orderO).withinDeliveryRange = some true := by
  have h := C7_distance_annotation_format (fun _ _ => 1500) ⟨0, 0⟩ orderO ⟨11, 21⟩ rfl
  constructor
  · rw [h.2.2.2.1 (by norm_num)]
    show toFixed2 ((1500 : ℚ) / 1000) ++ " km" = "1.50 km"
    have hc : (⌊(1500 : ℚ) / 1000 * 100 + 1 / 2⌋ : ℤ) = 150 := by
      norm_num [Int.floor_eq_iff]
    simp only [toFixed2, hc]
    decide
  · exact h.2.2.2.2.mpr (by norm_num)

/-- C8 counterexample: an observed change event for `orderO` is published
to the topic with an underscore separator, not to the colon-separated
topic the claim names. -/
theorem C8_colon_topics_counterexample :
    "order_o1" ∈ handleOrderChange ⟨"update", some orderO⟩ ∧
    "order:o1" ∉ handleOrderChange ⟨"update", some orderO⟩ ∧
    "user:cust1" ∉ handleOrderChange ⟨"update", some orderO⟩ := by decide

/-- C8 amended: for every observed insert/update/replace event with a full
document, the fan-out publishes to the order topic `order_<id>` and the
user topic `user_<id>` always, to `agent_<id>` exactly when an agent is
assigned, and so reaches at most three topics. -/
theorem C8_fanout_topics (o : Order) (op : String)
    (hop : op = "update" ∨ op = "insert" ∨ op = "replace") :
    handleOrderChange ⟨op, some o⟩ =
      ["order_" ++ o.id, "user_" ++ o.user] ++
        (match o.deliveryAgent with
         | some a => ["agent_" ++ a]
         | none => []) ∧
    (handleOrderChange ⟨op, some o⟩).length ≤ 3 ∧
    (o.deliveryAgent = none → (handleOrderChange ⟨op, some o⟩).length = 2) ∧
    (∀ a, o.deliveryAgent = some a → (handleOrderChange ⟨op, some o⟩).length = 3) := by
  have h1 : handleOrderChange ⟨op, some o⟩ = fanoutTopics o := by
    rcases hop with rfl | rfl | rfl <;> simp [handleOrderChange]
  rcases hd : o.deliveryAgent with _ | a <;>
    simp [h1, fanoutTopics, hd]

/-- Witness for C8 amended, at an assigned order and an update event. -/
theorem C8_fanout_topics_witness :
    handleOrderChange ⟨"update", some orderAssigned⟩ =
      ["order_" ++ orderAssigned.id, "user_" ++ orderAssigned.user] ++
        (match orderAssigned.deliveryAgent with
         | some a => ["agent_" ++ a]
         | none => []) ∧
    (handleOrderChange ⟨"update", some orderAssigned⟩).length ≤ 3 ∧
    (orderAssigned.deliveryAgent = none →
      (handleOrderChange ⟨"update", some orderAssigned⟩).length = 2) ∧
    (∀ a, orderAssigned.deliveryAgent = some a →
      (handleOrderChange ⟨"update", some orderAssigned⟩).length = 3) :=
  C8_fanout_topics orderAssigned "update" (Or.inl rfl)

/-- C9: the code contradicts the claim: `closeChangeStreams` run while the
store connection is still live (as during graceful shutdown, where streams
close before the connection) fires the close handler, which consults only
the connection state — there is no shutdown flag — and therefore schedules
an automatic reconnect even for this intentional close. -/
theorem C9_intentional_close_schedules_reconnect :
    closeChangeStreams true { streamOpen := true, reconnectScheduled := false } =
      { streamOpen := false, reconnectScheduled := true } := by decide

/-- C1: the code contradicts the claim: `acceptOrder` checks the
"unassigned" predicate on a snapshot and writes back without any
conditional update, so while the serialized schedule produces one success
and one conflict, the interleaved schedule (both reads before both writes)
lets both agents succeed and the later write silently overwrites the
assigned agent. -/
theorem C1_accept_race_silent_overwrite :
    (raceRun agentA agentB 1000 "alice" "bob" (raceInit orderO)
        [.readA, .writeA, .readB, .writeB]).outA = some (.ok ()) ∧
    (raceRun agentA agentB 1000 "alice" "bob" (raceInit orderO)
        [.readA, .writeA, .readB, .writeB]).outB =
      some (.error ⟨400, "This order has already been assigned to a delivery agent"⟩) ∧
    (raceRun agentA agentB 1000 "alice" "bob" (raceInit orderO)
        [.readA, .writeA, .readB, .writeB]).store.deliveryAgent = some agentA.id ∧
    (raceRun agentA agentB 1000 "alice" "bob" (raceInit orderO)
        [.readA, .readB, .writeA, .writeB]).outA = some (.ok ()) ∧
    (raceRun agentA agentB 1000 "alice" "bob" (raceInit orderO)
        [.readA, .readB, .writeA, .writeB]).outB = some (.ok ()) ∧
    (raceRun agentA agentB 1000 "alice" "bob" (raceInit orderO)
        [.readA, .readB, .writeA, .writeB]).store.deliveryAgent = some agentB.id ∧
    agentB.id ≠ agentA.id := by decide

/-- Annotation never changes the underlying order. -/
lemma annotateOrder_ord (dist : DistanceFn) (loc : GeoPoint) (o : Order) :
    (annotateOrder dist loc o).ord = o := by
  cases h : o.pickupLocation <;> simp [annotateOrder, h]

/-- Distance value of an annotated order with well-formed coordinates. -/
lemma annotateOrder_value_of_some (dist : DistanceFn) (loc : GeoPoint) (o : Order)
    (p : GeoPoint) (hp : o.pickupLocation = some p) :
    (annotateOrder dist loc o).distance.value = dist loc p := by
  simp [annotateOrder, hp, mkDistanceInfo]

/-- Annotation of an order with malformed coordinates: the sentinel value,
the Unknown text, and exclusion from the range classification. -/
lemma annotateOrder_malformed (dist : DistanceFn) (loc : GeoPoint) (o : Order)
    (hp : o.pickupLocation = none) :
    (annotateOrder dist loc o).distance.value = MAX_SAFE_INTEGER ∧
    (annotateOrder dist loc o).distance.text = "Unknown" ∧
    (annotateOrder dist loc o).withinDeliveryRange = some false := by
  simp [annotateOrder, hp]

/-- Membership in the all-confirmed candidate list. -/
lemma mem_ordersWithDistance_all (dist : DistanceFn) (loc : GeoPoint) (agent : Agent)
    (db : List Order) (a : AnnotatedOrder) :
    a ∈ ordersWithDistance dist loc agent db true ↔
      ∃ o ∈ db.filter (nearbyQuery agent), annotateOrder dist loc o = a := by
  simp [ordersWithDistance, List.mem_map]

/-- The query predicate, spelled out. -/
lemma nearbyQuery_eq_true (agent : Agent) (o : Order) :
    nearbyQuery agent o = true ↔
      o.id ∉ agent.rejectedOrders ∧ o.deliveryAgent = none ∧ o.status = "confirmed" := by
  simp [nearbyQuery, Option.isNone_iff_eq_none, and_assoc]

/-- The coarse radius filter, spelled out. -/
lemma geoNearFilter_eq_true (dist : DistanceFn) (loc : GeoPoint) (o : Order) :
    geoNearFilter dist loc o = true ↔
      ∃ p, o.pickupLocation = some p ∧ dist loc p ≤ maxDistance := by
  cases hp : o.pickupLocation <;> simp [geoNearFilter, hp]

/-- Membership in the radius-filtered candidate list (the default
listing, without `includeAllConfirmed`). -/
lemma mem_ordersWithDistance_near (dist : DistanceFn) (loc : GeoPoint) (agent : Agent)
    (db : List Order) (a : AnnotatedOrder) :
    a ∈ ordersWithDistance dist loc agent db false ↔
      ∃ o ∈ (db.filter (nearbyQuery agent)).filter (geoNearFilter dist loc),
        annotateOrder dist loc o = a := by
  simp [ordersWithDistance, List.mem_map]

/-- C6: in the all-confirmed candidate listing, the candidates are exactly
the stored orders that are confirmed, unassigned and not rejected by the
requesting agent; the list is ranked by ascending distance; an order with
malformed or missing pickup coordinates gets the distance-unknown sentinel
(not zero, not an error), text Unknown, `withinDeliveryRange = false`, is
ranked after every order with a computed distance, and the listing as a
whole still succeeds. The bound hypothesis reflects that a great-circle
distance in meters is far below `Number.MAX_SAFE_INTEGER`. -/
theorem C6_nearby_candidate_listing (dist : DistanceFn) (loc : GeoPoint) (agent : Agent)
    (db : List Order) (hbound : ∀ p q, dist p q < MAX_SAFE_INTEGER) :
    (∀ o : Order,
      (∃ a ∈ ordersWithDistance dist loc agent db true, a.ord = o) ↔
        o ∈ db ∧ o.id ∉ agent.rejectedOrders ∧ o.deliveryAgent = none ∧
          o.status = "confirmed") ∧
    (∀ o : Order,
      (∃ a ∈ ordersWithDistance dist loc agent db false, a.ord = o) ↔
        o ∈ db ∧ o.id ∉ agent.rejectedOrders ∧ o.deliveryAgent = none ∧
          o.status = "confirmed" ∧
          ∃ p, o.pickupLocation = some p ∧ dist loc p ≤ maxDistance) ∧
    (∀ inc : Bool, List.Sorted distLE (ordersWithDistance dist loc agent db inc)) ∧
    (∀ a ∈ ordersWithDistance dist loc agent db true,
      a.ord.pickupLocation = none →
        a.distance.value = MAX_SAFE_INTEGER ∧ a.distance.value ≠ 0 ∧
        a.distance.text = "Unknown" ∧ a.withinDeliveryRange = some false) ∧
    (∀ i j : Fin (ordersWithDistance dist loc agent db true).length, i < j →
      ((ordersWithDistance dist loc agent db true).get i).ord.pickupLocation = none →
      ((ordersWithDistance dist loc agent db true).get j).ord.pickupLocation = none) ∧
    (agent.isVerified = true → agent.isAvailable = true →
      agent.currentLocation = some loc → agent.activeOrders = [] →
      getNearbyOrders dist db agent true =
        .ok (ordersWithDistance dist loc agent db true)) := by
  have hsorted : ∀ inc : Bool, List.Sorted distLE (ordersWithDistance dist loc agent db inc) :=
    fun _ => List.sorted_insertionSort distLE _
  have hmal : ∀ a ∈ ordersWithDistance dist loc agent db true,
      a.ord.pickupLocation = none →
        a.distance.value = MAX_SAFE_INTEGER ∧ a.distance.value ≠ 0 ∧
        a.distance.text = "Unknown" ∧ a.withinDeliveryRange = some false := by
    intro a ha hnone
    rcases (mem_ordersWithDistance_all dist loc agent db a).mp ha with ⟨o, _, rfl⟩
    rw [annotateOrder_ord] at hnone
    rcases annotateOrder_malformed dist loc o hnone with ⟨h1, h2, h3⟩
    refine ⟨h1, ?_, h2, h3⟩
    rw [h1]
    norm_num [MAX_SAFE_INTEGER]
  refine ⟨?_, ?_, hsorted, hmal, ?_, ?_⟩
  · intro o
    constructor
    · rintro ⟨a, ha, rfl⟩
      rcases (mem_ordersWithDistance_all dist loc agent db a).mp ha with ⟨o', ho', rfl⟩
      rw [annotateOrder_ord]
      rcases List.mem_filter.mp ho' with ⟨hdb, hq⟩
      exact ⟨hdb, (nearbyQuery_eq_true agent o').mp hq⟩
    · rintro ⟨hdb, h1, h2, h3⟩
      refine ⟨annotateOrder dist loc o, ?_, annotateOrder_ord dist loc o⟩
      exact (mem_ordersWithDistance_all dist loc agent db _).mpr
        ⟨o, List.mem_filter.mpr ⟨hdb, (nearbyQuery_eq_true agent o).mpr ⟨h1, h2, h3⟩⟩, rfl⟩
  · intro o
    constructor
    · rintro ⟨a, ha, rfl⟩
      rcases (mem_ordersWithDistance_near dist loc agent db a).mp ha with ⟨o', ho', rfl⟩
      rw [annotateOrder_ord]
      rcases List.mem_filter.mp ho' with ⟨ho'', hgeo⟩
      rcases List.mem_filter.mp ho'' with ⟨hdb, hq⟩
      rcases (nearbyQuery_eq_true agent o').mp hq with ⟨h1, h2, h3⟩
      exact ⟨hdb, h1, h2, h3, (geoNearFilter_eq_true dist loc o').mp hgeo⟩
    · rintro ⟨hdb, h1, h2, h3, hp⟩
      refine ⟨annotateOrder dist loc o, ?_, annotateOrder_ord dist loc o⟩
      refine (mem_ordersWithDistance_near dist loc agent db _).mpr ⟨o, ?_, rfl⟩
      exact List.mem_filter.mpr
        ⟨List.mem_filter.mpr ⟨hdb, (nearbyQuery_eq_true agent o).mpr ⟨h1, h2, h3⟩⟩,
         (geoNearFilter_eq_true dist loc o).mpr hp⟩
  · intro i j hij hi
    have hrel : distLE ((ordersWithDistance dist loc agent db true).get i)
        ((ordersWithDistance dist loc agent db true).get j) :=
      (hsorted true).rel_get_of_lt hij
    have hjmem : (ordersWithDistance dist loc agent db true).get j ∈
        ordersWithDistance dist loc agent db true := List.get_mem _ j.1 j.2
    rcases (mem_ordersWithDistance_all dist loc agent db _).mp hjmem with ⟨o', _, hj⟩
    have hjord : ((ordersWithDistance dist loc agent db true).get j).ord = o' := by
      rw [← hj, annotateOrder_ord]
    rw [hjord]
    cases hp' : o'.pickupLocation with
    | none => rfl
    | some p =>
        exfalso
        have hvi : ((ordersWithDistance dist loc agent db true).get i).distance.value =
            MAX_SAFE_INTEGER :=
          (hmal _ (List.get_mem _ i.1 i.2) hi).1
        have hvj : ((ordersWithDistance dist loc agent db true).get j).distance.value =
            dist loc p := by
          rw [← hj, annotateOrder_value_of_some dist loc o' p hp']
        have : MAX_SAFE_INTEGER ≤ dist loc p := by
          rw [← hvi, ← hvj]
          exact hrel
        exact absurd (lt_of_le_of_lt this (hbound loc p)) (lt_irrefl _)
  · intro hv ha hloc hactive
    have hq : ∀ o, activeOrdersQuery agent o = false := by
      intro o
      simp [activeOrdersQuery, hactive]
    have hfilter : db.filter (activeOrdersQuery agent) = [] := by
      rw [List.filter_eq_nil_iff]
      intro o _
      simp [hq o]
    simp [getNearbyOrders, hv, ha, hloc, hfilter, annotateActives]

/-- A small stored collection: a malformed-coordinates candidate, a
well-formed candidate, and an order that is already assigned. -/
def dbOrders : List Order := [orderMalformed, orderO, orderAssigned]

/-- Witness for C6 at a concrete store, agent and distance function. -/
theorem C6_nearby_candidate_listing_witness :
    (∀ o : Order,
      (∃ a ∈ ordersWithDistance (fun _ _ => 100) ⟨10, 20⟩ agentA dbOrders true,
        a.ord = o) ↔
        o ∈ dbOrders ∧ o.id ∉ agentA.rejectedOrders ∧ o.deliveryAgent = none ∧
          o.status = "confirmed") ∧
    (∀ o : Order,
      (∃ a ∈ ordersWithDistance (fun _ _ => 100) ⟨10, 20⟩ agentA dbOrders false,
        a.ord = o) ↔
        o ∈ dbOrders ∧ o.id ∉ agentA.rejectedOrders ∧ o.deliveryAgent = none ∧
          o.status = "confirmed" ∧
          ∃ p, o.pickupLocation = some p ∧
            (fun _ _ => (100 : ℚ)) (⟨10, 20⟩ : GeoPoint) p ≤ maxDistance) ∧
    (∀ inc : Bool, List.Sorted distLE
      (ordersWithDistance (fun _ _ => 100) ⟨10, 20⟩ agentA dbOrders inc)) ∧
    (∀ a ∈ ordersWithDistance (fun _ _ => 100) ⟨10, 20⟩ agentA dbOrders true,
      a.ord.pickupLocation = none →
        a.distance.value = MAX_SAFE_INTEGER ∧ a.distance.value ≠ 0 ∧
        a.distance.text = "Unknown" ∧ a.withinDeliveryRange = some false) ∧
    (∀ i j : Fin
        (ordersWithDistance (fun _ _ => 100) ⟨10, 20⟩ agentA dbOrders true).length,
      i < j →
      ((ordersWithDistance (fun _ _ => 100) ⟨10, 20⟩ agentA
          dbOrders true).get i).ord.pickupLocation = none →
      ((ordersWithDistance (fun _ _ => 100) ⟨10, 20⟩ agentA
          dbOrders true).get j).ord.pickupLocation = none) ∧
    (agentA.isVerified = true → agentA.isAvailable = true →
      agentA.currentLocation = some ⟨10, 20⟩ → agentA.activeOrders = [] →
      getNearbyOrders (fun _ _ => 100) dbOrders agentA true =
        .ok (ordersWithDistance (fun _ _ => 100) ⟨10, 20⟩ agentA dbOrders true)) :=
  C6_nearby_candidate_listing (fun _ _ => 100) ⟨10, 20⟩ agentA dbOrders
    (fun _ _ => by norm_num [MAX_SAFE_INTEGER])

end FoodDelivery
